import Mathlib

/-!
Verification of the msgpack encode/decode core (file src/encoder.go) against
its natural-language specification.

The embedding is byte-exact: the wire is a `List Nat` of octets, machine
integers are `Nat` / `Int` with explicit reductions modulo powers of two, and
fallible operations return `Except String`.  Every definition is translated
from the Go source, except for a handful of constants and collaborator
interfaces that the repository keeps outside src/encoder.go (the tag-byte
catalogue, the big-endian Writer/Reader, the buffer pool); those are modelled
from the specification and are marked as such in their doc comments.
-/

namespace Msgpack

/-! ### Big-endian byte helpers (Writer / Reader collaborators)

Modelled from the spec: the byte-stream writer and reader are external
collaborators of the core (spec section 4.2 / section 6); their source is not
under src/.  The writer operations write_u8/u16/u32/u64 emit big-endian
octets of the argument reduced to the written width; the reader operations
read them back, a short read being an error. -/

/-- Big-endian octets of `n` at width `w` bytes (value taken modulo `256 ^ w`,
which is exactly the truncation the Go conversions uint8/16/32/64 perform
before the Writer emits them). -/
def beBytes : Nat → Nat → List Nat
  | 0, _ => []
  | w + 1, n => beBytes w (n / 256) ++ [n % 256]

/-- Value of a big-endian octet list. -/
def beVal (l : List Nat) : Nat :=
  l.foldl (fun a b => a * 256 + b) 0

/-- Modelled from the spec: reader operation read_byte (spec section 4.2). -/
def readByteL : List Nat → Except String (Nat × List Nat)
  | [] => .error "msgpack: unexpected end of stream"
  | b :: r => .ok (b, r)

/-- Modelled from the spec: reader operations read_u8/u16/u32/u64
(spec section 4.2): read `w` big-endian octets; a short read is an error. -/
def readUintBE (w : Nat) (r : List Nat) : Except String (Nat × List Nat) :=
  if w ≤ r.length then .ok (beVal (r.take w), r.drop w)
  else .error "msgpack: unexpected end of stream"

/-! ### Encoder: scalar and string paths (src/encoder.go lines 124-276) -/

/-- Source: Encoder.EncodeNil (line 124): one byte 0xc0. -/
def EncodeNil : Except String (List Nat) := .ok [0xc0]

/-- Source: Encoder.EncodeBool (line 128): True 0xc3, False 0xc2. -/
def EncodeBool (b : Bool) : Except String (List Nat) :=
  .ok [if b then 0xc3 else 0xc2]

/-- Source: Encoder.EncodeFloat32 (line 138): 0xca then the 4 big-endian
bytes of the IEEE-754 bit pattern (carried here as a `Nat`). -/
def EncodeFloat32 (bits : Nat) : Except String (List Nat) :=
  .ok (0xca :: beBytes 4 bits)

/-- Source: Encoder.EncodeFloat64 (line 145): 0xcb then 8 bytes of the bit
pattern. -/
def EncodeFloat64 (bits : Nat) : Except String (List Nat) :=
  .ok (0xcb :: beBytes 8 bits)

/-- Source: Encoder.EncodeUint8 (line 152). -/
def EncodeUint8 (n : Nat) : Except String (List Nat) :=
  .ok (0xcc :: beBytes 1 n)

/-- Source: Encoder.EncodeUint16 (line 159). -/
def EncodeUint16 (n : Nat) : Except String (List Nat) :=
  .ok (0xcd :: beBytes 2 n)

/-- Source: Encoder.EncodeUint32 (line 166). -/
def EncodeUint32 (n : Nat) : Except String (List Nat) :=
  .ok (0xce :: beBytes 4 n)

/-- Source: Encoder.EncodeUint64 (line 173): Uint64 tag 0xcf then 8
big-endian bytes. -/
def EncodeUint64 (n : Nat) : Except String (List Nat) :=
  .ok (0xcf :: beBytes 8 n)

/-- Two's-complement image of an `Int` at width `w` bits, as a `Nat`:
exactly what the Go conversions uint8(int8 i) .. uint64(int64 i) produce. -/
def toUnsigned (w : Nat) (i : Int) : Nat :=
  (i % (2 ^ w : Nat)).toNat

/-- Source: Encoder.EncodeInt8 (line 180). -/
def EncodeInt8 (i : Int) : Except String (List Nat) :=
  .ok (0xd0 :: beBytes 1 (toUnsigned 8 i))

/-- Source: Encoder.EncodeInt16 (line 187). -/
def EncodeInt16 (i : Int) : Except String (List Nat) :=
  .ok (0xd1 :: beBytes 2 (toUnsigned 16 i))

/-- Source: Encoder.EncodeInt32 (line 194). -/
def EncodeInt32 (i : Int) : Except String (List Nat) :=
  .ok (0xd2 :: beBytes 4 (toUnsigned 32 i))

/-- Source: Encoder.EncodeInt64 (line 201): Int64 tag 0xd3 then 8 big-endian
bytes of the two's-complement bit pattern. -/
def EncodeInt64 (i : Int) : Except String (List Nat) :=
  .ok (0xd3 :: beBytes 8 (toUnsigned 64 i))

/-- Source: Encoder.EncodeBytes (lines 208-232): Bin8 0xc4 if the length is
at most 255, Bin16 0xc5 if at most 65535, Bin32 0xc6 if at most 2^32-1, else
an error; then the length at the chosen width and the payload. -/
def EncodeBytes (b : List Nat) : Except String (List Nat) :=
  let l := b.length
  if l ≤ 255 then .ok (0xc4 :: beBytes 1 l ++ b)
  else if l ≤ 65535 then .ok (0xc5 :: beBytes 2 l ++ b)
  else if l ≤ 4294967295 then .ok (0xc6 :: beBytes 4 l ++ b)
  else .error "msgpack: string is too long"

/-- Source: Encoder.EncodeString (lines 234-254): FixStr (0xa0 or-ed with
the length) if the length is below 32, Str8 0xd9 / Str16 0xda / Str32 0xdb
with a 1/2/4-byte big-endian length otherwise, an error past 2^32-1; the
header is followed by the string bytes. -/
def EncodeString (s : List Nat) : Except String (List Nat) :=
  let l := s.length
  if l < 32 then .ok ((0xa0 ||| l) :: s)
  else if l ≤ 255 then .ok (0xd9 :: beBytes 1 l ++ s)
  else if l ≤ 65535 then .ok (0xda :: beBytes 2 l ++ s)
  else if l ≤ 4294967295 then .ok (0xdb :: beBytes 4 l ++ s)
  else .error "msgpack: string is too long"

/-- Source: Encoder.EncodeExt, the part after the user encoder has filled the
scratch buffer (lines 454-507).  `payload` is the buffered user output; the
header selection is by its exact length, then one byte of the extension type
code, then the payload. -/
def EncodeExt (typ : Nat) (payload : List Nat) : Except String (List Nat) :=
  let l := payload.length
  if l = 1 then .ok (0xd4 :: (typ % 256) :: payload)
  else if l = 2 then .ok (0xd5 :: (typ % 256) :: payload)
  else if l = 4 then .ok (0xd6 :: (typ % 256) :: payload)
  else if l = 8 then .ok (0xd7 :: (typ % 256) :: payload)
  else if l = 16 then .ok (0xd8 :: (typ % 256) :: payload)
  else if l ≤ 255 then .ok (0xc7 :: beBytes 1 l ++ (typ % 256) :: payload)
  else if l ≤ 65535 then .ok (0xc8 :: beBytes 2 l ++ (typ % 256) :: payload)
  else if l ≤ 4294967295 then
    .ok (0xc9 :: beBytes 4 l ++ (typ % 256) :: payload)
  else .error "msgpack: extension payload too large"

/-! ### Encoder facade (static-dispatch portion, src/encoder.go lines 51-83)

The host-value universe below covers the statically dispatched arm of
Encoder.Encode: nil and every scalar, string and byte-string case.  The
reflective composite arms (slices, maps, records, lines 85-121) recurse
through reflection and are exercised by no theorem in this file; the claims
that touch them are settled on the leaf paths above. -/

/-- Host values of the statically dispatched arm of Encoder.Encode.
Platform-width `int` / `uint` (Go) are carried at full precision; floats are
carried as their IEEE-754 bit patterns. -/
inductive HostValue where
  | nil : HostValue
  | str (s : List Nat) : HostValue
  | bin (b : List Nat) : HostValue
  | boolV (b : Bool) : HostValue
  | f32 (bits : Nat) : HostValue
  | f64 (bits : Nat) : HostValue
  | uint (n : Nat) : HostValue
  | u8 (n : Nat) : HostValue
  | u16 (n : Nat) : HostValue
  | u32 (n : Nat) : HostValue
  | u64 (n : Nat) : HostValue
  | int (i : Int) : HostValue
  | i8 (i : Int) : HostValue
  | i16 (i : Int) : HostValue
  | i32 (i : Int) : HostValue
  | i64 (i : Int) : HostValue
  deriving DecidableEq

/-- Source: Encoder.Encode, static type switch (lines 51-83).  A Go `uint`
takes the uint64 path via uint64(v); a Go `int` takes the int64 path via
int64(v); a nil interface value reaches EncodeNil (lines 88-91). -/
def Encode : HostValue → Except String (List Nat)
  | .nil => EncodeNil
  | .str s => EncodeString s
  | .bin b => EncodeBytes b
  | .boolV b => EncodeBool b
  | .f32 bits => EncodeFloat32 bits
  | .f64 bits => EncodeFloat64 bits
  | .uint n => EncodeUint64 n
  | .u8 n => EncodeUint8 n
  | .u16 n => EncodeUint16 n
  | .u32 n => EncodeUint32 n
  | .u64 n => EncodeUint64 n
  | .int i => EncodeInt64 i
  | .i8 i => EncodeInt8 i
  | .i16 i => EncodeInt16 i
  | .i32 i => EncodeInt32 i
  | .i64 i => EncodeInt64 i

/-! ### Specification-side encoders (for the refinement claims C6 and C7) -/

/-- Drops the error message, keeping only success values, so that the
source-derived encoder can be compared with the spec-side one. -/
def okValue {α : Type} : Except String α → Option α
  | .ok x => some x
  | .error _ => none

/-- Written from the words of claim C6 / spec section 4.4: a string of byte
length L gets a FixStr tag carrying L in the low five bits when L is below
32, a Str8 tag and a one-byte length when L is at most 255, a Str16 tag and
a two-byte big-endian length when L is at most 65535, a Str32 tag and a
four-byte big-endian length when L is at most 2^32-1, and no encoding
otherwise; the header is always followed by the L string bytes. -/
def specEncodeString (s : List Nat) : Option (List Nat) :=
  let l := s.length
  if l < 32 then some ((0xa0 + l) :: s)
  else if l ≤ 255 then some (0xd9 :: l :: s)
  else if l ≤ 65535 then some (0xda :: l / 256 :: l % 256 :: s)
  else if l ≤ 4294967295 then
    some (0xdb :: l / 2 ^ 24 :: l / 2 ^ 16 % 256 :: l / 2 ^ 8 % 256 :: l % 256 :: s)
  else none

/-- Written from the words of claim C7 / spec section 4.8: a payload of
length exactly 1, 2, 4, 8 or 16 gets the corresponding FixExt tag; otherwise
Ext8 when at most 255, Ext16 when at most 65535, Ext32 when at most 2^32-1,
each with the length at the corresponding width; then one byte of extension
type code, then the payload; lengths past 2^32-1 have no encoding. -/
def specEncodeExt (typ : Nat) (payload : List Nat) : Option (List Nat) :=
  let l := payload.length
  if l = 1 then some (0xd4 :: (typ % 256) :: payload)
  else if l = 2 then some (0xd5 :: (typ % 256) :: payload)
  else if l = 4 then some (0xd6 :: (typ % 256) :: payload)
  else if l = 8 then some (0xd7 :: (typ % 256) :: payload)
  else if l = 16 then some (0xd8 :: (typ % 256) :: payload)
  else if l ≤ 255 then some (0xc7 :: l :: (typ % 256) :: payload)
  else if l ≤ 65535 then some (0xc8 :: l / 256 :: l % 256 :: (typ % 256) :: payload)
  else if l ≤ 4294967295 then
    some (0xc9 :: l / 2 ^ 24 :: l / 2 ^ 16 % 256 :: l / 2 ^ 8 % 256 :: l % 256
      :: (typ % 256) :: payload)
  else none

/-! ### Decoded values and Go dynamic types -/

/-- Go types that can appear as the dynamic type of a generically decoded
value or as the declared type of a modelled record field.  Record-typed
fields (and pointers to records) are outside this universe; the claims
settled in this file do not touch the struct-typed-field arms of the
binder. -/
inductive GoType where
  | boolT | u8T | u16T | u32T | u64T | uintT
  | i8T | i16T | i32T | i64T | intT
  | f32T | f64T | stringT | binT | sliceAnyT | mapAnyT
  deriving DecidableEq

/-- The result of a leaf decoder: the Go reflect.Value it materialises.
`invalid` is the zero reflect.Value (returned by the Nil decoder).  Floats
are carried as their IEEE-754 bit patterns, strings and byte slices as octet
lists, maps and structs as association lists. -/
inductive DV where
  | invalid
  | boolV (b : Bool)
  | f32 (bits : Nat)
  | f64 (bits : Nat)
  | u8 (n : Nat)
  | u16 (n : Nat)
  | u32 (n : Nat)
  | u64 (n : Nat)
  | uintV (n : Nat)
  | i8 (i : Int)
  | i16 (i : Int)
  | i32 (i : Int)
  | i64 (i : Int)
  | intV (i : Int)
  | strV (s : List Nat)
  | binV (b : List Nat)
  | arrV (xs : List DV)
  | mapV (m : List (List Nat × DV))
  | structV (fields : List (List Nat × DV))

/-- Dynamic Go type of a materialised value; `none` for the invalid value
(whose Type method panics) and for struct values, which the generic leaf
decoders never produce. -/
def dvGoType : DV → Option GoType
  | .invalid => none
  | .boolV _ => some .boolT
  | .f32 _ => some .f32T
  | .f64 _ => some .f64T
  | .u8 _ => some .u8T
  | .u16 _ => some .u16T
  | .u32 _ => some .u32T
  | .u64 _ => some .u64T
  | .uintV _ => some .uintT
  | .i8 _ => some .i8T
  | .i16 _ => some .i16T
  | .i32 _ => some .i32T
  | .i64 _ => some .i64T
  | .intV _ => some .intT
  | .strV _ => some .stringT
  | .binV _ => some .binT
  | .arrV _ => some .sliceAnyT
  | .mapV _ => some .mapAnyT
  | .structV _ => none

def isIntegerT : GoType → Bool
  | .u8T | .u16T | .u32T | .u64T | .uintT => true
  | .i8T | .i16T | .i32T | .i64T | .intT => true
  | _ => false

def isNumericT (t : GoType) : Bool :=
  isIntegerT t || t = .f32T || t = .f64T

/-- Modelled from the Go language specification: reflect.Type.ConvertibleTo
restricted to the types above.  All numeric types are inter-convertible; an
integer type converts to string (code-point conversion); string and byte
slice convert to each other; otherwise only identical types convert. -/
def goConvertibleTo (s d : GoType) : Bool :=
  if isNumericT s && isNumericT d then true
  else if isIntegerT s && d = .stringT then true
  else
    match s, d with
    | .stringT, .stringT => true
    | .stringT, .binT => true
    | .binT, .stringT => true
    | .binT, .binT => true
    | .boolT, .boolT => true
    | .sliceAnyT, .sliceAnyT => true
    | .mapAnyT, .mapAnyT => true
    | _, _ => false

/-- Signed two's-complement reinterpretation of an integer at width `w`. -/
def toSigned (w : Nat) (i : Int) : Int :=
  let r := i % ((2 : Int) ^ w)
  if r < (2 : Int) ^ (w - 1) then r else r - (2 : Int) ^ w

/-- The integer content of an integer-typed value (0 on other values, on
which it is never used). -/
def dvToInt : DV → Int
  | .u8 n => n
  | .u16 n => n
  | .u32 n => n
  | .u64 n => n
  | .uintV n => n
  | .i8 i => i
  | .i16 i => i
  | .i32 i => i
  | .i64 i => i
  | .intV i => i
  | _ => 0

/-- Modelled from the Go language specification: UTF-8 octets of a code
point (valid inputs only; callers guard the range). -/
def utf8Encode (n : Nat) : List Nat :=
  if n < 0x80 then [n]
  else if n < 0x800 then
    [0xc0 ||| (n >>> 6), 0x80 ||| (n &&& 0x3f)]
  else if n < 0x10000 then
    [0xe0 ||| (n >>> 12), 0x80 ||| ((n >>> 6) &&& 0x3f), 0x80 ||| (n &&& 0x3f)]
  else
    [0xf0 ||| (n >>> 18), 0x80 ||| ((n >>> 12) &&& 0x3f),
      0x80 ||| ((n >>> 6) &&& 0x3f), 0x80 ||| (n &&& 0x3f)]

/-- Modelled from the Go language specification: converting an integer to a
string yields the UTF-8 bytes of the code point, or the replacement
character U+FFFD (ef bf bd) when the value is not a valid code point
(negative, above 0x10FFFF, or a surrogate). -/
def goIntToString (i : Int) : List Nat :=
  if 0 ≤ i ∧ i ≤ 0x10FFFF ∧ ¬(0xD800 ≤ i ∧ i ≤ 0xDFFF) then
    utf8Encode i.toNat
  else [0xef, 0xbf, 0xbd]

/-- Modelled from the Go language specification: reflect.Value.Convert for
the convertible pairs the binder can meet.  Integer targets truncate to the
target width (two's complement for signed targets); an integer converts to
string by code point; string and byte slice copy into each other; identical
types are returned unchanged.  IEEE-754 value conversions (between the two
float widths, or between float and integer kinds) are outside the modelled
fragment: those arms return the source value unchanged, and no theorem in
this file depends on them. -/
def goConvert (v : DV) (d : GoType) : DV :=
  match v, d with
  | .f32 _, _ => v
  | .f64 _, _ => v
  | .strV s, .stringT => .strV s
  | .binV b, .stringT => .strV b
  | .strV s, .binT => .binV s
  | _, .u8T => .u8 (toUnsigned 8 (dvToInt v))
  | _, .u16T => .u16 (toUnsigned 16 (dvToInt v))
  | _, .u32T => .u32 (toUnsigned 32 (dvToInt v))
  | _, .u64T => .u64 (toUnsigned 64 (dvToInt v))
  | _, .uintT => .uintV (toUnsigned 64 (dvToInt v))
  | _, .i8T => .i8 (toSigned 8 (dvToInt v))
  | _, .i16T => .i16 (toSigned 16 (dvToInt v))
  | _, .i32T => .i32 (toSigned 32 (dvToInt v))
  | _, .i64T => .i64 (toSigned 64 (dvToInt v))
  | _, .intT => .intV (toSigned 64 (dvToInt v))
  | _, .stringT => .strV (goIntToString (dvToInt v))
  | _, _ => v

/-- Source: structDecoder.Decode, generic-field arm (lines 890-900): gate on
reflect ConvertibleTo, then Convert and Set.  A nil decoded value makes
reflect.ValueOf invalid, and calling Type on it panics; the panic is
modelled as an error. -/
def setStructField (value : DV) (ftype : GoType) : Except String DV :=
  match dvGoType value with
  | none => .error "reflect: call of Type on zero Value"
  | some t =>
    if goConvertibleTo t ftype then .ok (goConvert value ftype)
    else .error "msgpack: cannot convert"

/-! ### The decoders registry and tag classification -/

/-- The leaf decoder objects the decoders table can hold, each carrying its
registered code, as in the source structs. -/
inductive VD where
  | nilD
  | boolD (code : Nat)
  | floatD (code : Nat)
  | uintD (code : Nat)
  | intD (code : Nat)
  | extD (code : Nat)
  | strD (code : Nat)
  | fixstrD (code : Nat)
  | arrayD (code : Nat)
  | mapD (code : Nat)
  deriving DecidableEq

/-- Source: the decoders table (lines 522-548) together with the init loop
(lines 550-562) that adds the 32 FixStr, 16 FixArray and 16 FixMap entries,
read through lookupDecoder (lines 1113-1119).  The numeric tag values are
modelled from the spec's tag catalogue (section 3), the catalogue source not
being under src/.  No entry exists for the positive fixint range 0x00-0x7f
or the negative fixint range 0xe0-0xff, nor for Ext16/Ext32 or
FixExt1/2/4/16. -/
def lookupDecoder (code : Nat) : Option VD :=
  if code = 0xc0 then some .nilD
  else if code = 0xc3 then some (.boolD 0xc3)
  else if code = 0xc2 then some (.boolD 0xc2)
  else if code = 0xca then some (.floatD 0xca)
  else if code = 0xcb then some (.floatD 0xcb)
  else if code = 0xcc then some (.uintD 0xcc)
  else if code = 0xcd then some (.uintD 0xcd)
  else if code = 0xce then some (.uintD 0xce)
  else if code = 0xcf then some (.uintD 0xcf)
  else if code = 0xd0 then some (.intD 0xd0)
  else if code = 0xd1 then some (.intD 0xd1)
  else if code = 0xd2 then some (.intD 0xd2)
  else if code = 0xd3 then some (.intD 0xd3)
  else if code = 0xc7 then some (.extD 0xc7)
  else if code = 0xd7 then some (.extD 0xd7)
  else if code = 0xd9 then some (.strD 0xd9)
  else if code = 0xda then some (.strD 0xda)
  else if code = 0xdb then some (.strD 0xdb)
  else if code = 0xc4 then some (.strD 0xc4)
  else if code = 0xc5 then some (.strD 0xc5)
  else if code = 0xc6 then some (.strD 0xc6)
  else if code = 0xdc then some (.arrayD 0xdc)
  else if code = 0xdd then some (.arrayD 0xdd)
  else if code = 0xde then some (.mapD 0xde)
  else if code = 0xdf then some (.mapD 0xdf)
  else if 0xa0 ≤ code ∧ code ≤ 0xbf then some (.fixstrD code)
  else if 0x90 ≤ code ∧ code ≤ 0x9f then some (.arrayD code)
  else if 0x80 ≤ code ∧ code ≤ 0x8f then some (.mapD code)
  else none

/-- Modelled from the spec: the tag-catalogue predicate is_in_map_family
(section 4.1): FixMap 0x80-0x8f, Map16 0xde, Map32 0xdf. -/
def IsMapFamily (code : Nat) : Bool :=
  (0x80 ≤ code && code ≤ 0x8f) || code = 0xde || code = 0xdf

/-- Source: extDecoder.Decode, payload-size computation (lines 916-952).
The first switch assigns the length-prefix width only for Ext8, so the
length-reading arm runs only for Ext8; in the fixed arm only FixExt8
assigns a size, every other code leaving the payload size at zero. -/
def extPayloadSize (code : Nat) (r : List Nat) : Except String (Nat × List Nat) :=
  let size : Nat := if code = 0xc7 then 1 else 0
  if 0 < size then
    if code = 0xc7 then readUintBE 1 r
    else if code = 0xc8 then readUintBE 2 r
    else if code = 0xc9 then readUintBE 4 r
    else .error "msgpack: unsupported ext"
  else .ok ((if code = 0xd7 then 8 else 0), r)

/-- Modelled from the pkg/errors library the source uses: Wrap and Wrapf
return nil when applied to a nil error, and annotate the message
otherwise. -/
def errorsWrapf (e : Option String) (msg : String) : Option String :=
  match e with
  | none => none
  | some s => some (msg ++ ": " ++ s)

/-! ### Sinks, the extension decode registry and record descriptions -/

/-- A decode-registry entry for one extension type code: whether the pointer
to the registered host type implements DecodeMsgpackExter, and the user
DecodeMsgpackExt body, which acts on the length-bounded payload prefix and
returns the produced value together with the unconsumed part of that
prefix. -/
structure ExtEntry where
  canDecode : Bool
  dec : List Nat → Except String (DV × List Nat)

/-- The process-wide extDecodeRegistry (read under muExtDecode). -/
def Reg : Type := Nat → Option ExtEntry

def emptyReg : Reg := fun _ => none

/-- One declared field of a record type, after tag parsing: the resolved
on-wire name (the parseMsgpackTag result; a literal "-" tag gives the name
0x2d), whether the field is exported, and its declared type. -/
structure FieldDesc where
  name : List Nat
  exported : Bool
  ftype : GoType

/-- The caller's sink for Decoder.Decode: a pointer to interface-typed
storage, to a string, or to a record of the modelled field universe.  Sink
validity (non-nil pointer) and the self-decoding capability (lines
1125-1138) are outside the modelled universe. -/
inductive Sink where
  | generic
  | strSink
  | structSink (fields : List FieldDesc)

def isStructSink : Sink → Bool
  | .structSink _ => true
  | _ => false

def sinkFields : Sink → List FieldDesc
  | .structSink fds => fds
  | _ => []

/-- Association-list update with Go map semantics (insert or overwrite). -/
def assocSet {β : Type} : List (List Nat × β) → List Nat → β → List (List Nat × β)
  | [], k, v => [(k, v)]
  | (k', v') :: rest, k, v =>
    if k' = k then (k, v) :: rest else (k', v') :: assocSet rest k v

/-- Association-list lookup. -/
def assocGet {β : Type} : List (List Nat × β) → List Nat → Option β
  | [], _ => none
  | (k', v') :: rest, k => if k' = k then some v' else assocGet rest k

/-- Source: structDecoder.Decode, binding-map construction (lines 854-868):
skip unexported fields and fields whose resolved name is "-", then map the
name to the field (later fields overwriting earlier ones, as in a Go
map). -/
def buildBinding (fields : List FieldDesc) : List (List Nat × GoType) :=
  fields.foldl
    (fun m f =>
      if f.exported && !(f.name = [0x2d] : Bool) then assocSet m f.name f.ftype
      else m)
    []

/-- Zero value of a declared field type (reflect.New zero-initialises the
record). -/
def zeroOfType : GoType → DV
  | .boolT => .boolV false
  | .u8T => .u8 0
  | .u16T => .u16 0
  | .u32T => .u32 0
  | .u64T => .u64 0
  | .uintT => .uintV 0
  | .i8T => .i8 0
  | .i16T => .i16 0
  | .i32T => .i32 0
  | .i64T => .i64 0
  | .intT => .intV 0
  | .f32T => .f32 0
  | .f64T => .f64 0
  | .stringT => .strV []
  | .binT => .binV []
  | .sliceAnyT => .arrV []
  | .mapAnyT => .mapV []

/-- The freshly allocated record: every declared field at its zero value. -/
def initStruct (fields : List FieldDesc) : List (List Nat × DV) :=
  fields.map (fun f => (f.name, zeroOfType f.ftype))

/-! ### Size headers shared by the array, map and struct decoders -/

/-- Source: arrayDecoder.Decode size parsing (lines 741-763): FixArray
embeds the size in the tag; Array16/Array32 read a 2/4-byte big-endian
size. -/
def arraySize (code : Nat) (r : List Nat) : Except String (Nat × List Nat) :=
  if 0x90 ≤ code ∧ code ≤ 0x9f then .ok (code - 0x90, r)
  else if code = 0xdc then readUintBE 2 r
  else if code = 0xdd then readUintBE 4 r
  else .error "msgpack: unsupported array type"

/-- Source: mapDecoder.Decode / structDecoder.Decode size parsing (lines
781-802 and 828-849): FixMap embeds the size; Map16/Map32 read a 2/4-byte
big-endian size. -/
def mapSize (code : Nat) (r : List Nat) : Except String (Nat × List Nat) :=
  if 0x80 ≤ code ∧ code ≤ 0x8f then .ok (code - 0x80, r)
  else if code = 0xde then readUintBE 2 r
  else if code = 0xdf then readUintBE 4 r
  else .error "msgpack: unsupported map type"

/-! ### The recursive decode loops

Each loop takes the recursive decode entry as an explicit function argument,
so the only recursion in `Decode` itself is on the fuel bound. -/

/-- Source: arrayDecoder.Decode element loop (lines 765-773): decode `n`
elements into fresh interface slots, aborting on the first error. -/
def decodeSeq (dec : List Nat → Except String (DV × List Nat)) :
    Nat → List Nat → Except String (List DV × List Nat)
  | 0, r => .ok ([], r)
  | n + 1, r =>
    match dec r with
    | .error e => .error e
    | .ok (v, r1) =>
      match decodeSeq dec n r1 with
      | .error e => .error e
      | .ok (vs, r2) => .ok (v :: vs, r2)

/-- Source: mapDecoder.Decode entry loop (lines 804-817): decode a string
key and a generic value `n` times, later keys overwriting earlier ones. -/
def decodePairs (decKey : List Nat → Except String (List Nat × List Nat))
    (decVal : List Nat → Except String (DV × List Nat)) :
    Nat → List (List Nat × DV) → List Nat →
      Except String (List (List Nat × DV) × List Nat)
  | 0, m, r => .ok (m, r)
  | n + 1, m, r =>
    match decKey r with
    | .error e => .error e
    | .ok (k, r1) =>
      match decVal r1 with
      | .error e => .error e
      | .ok (v, r2) => decodePairs decKey decVal n (assocSet m k v) r2

/-- Source: structDecoder.Decode entry loop (lines 870-902): decode a string
key; when the binding map has no entry for it the iteration moves on WITHOUT
decoding the entry's value (the source's continue at line 879); when it has
one, decode a generic value and convert-and-set it.  The record-typed-field
arms (lines 882-889) are outside the modelled field universe, whose declared
types contain no record kinds. -/
def structLoop (decKey : List Nat → Except String (List Nat × List Nat))
    (decVal : List Nat → Except String (DV × List Nat))
    (binding : List (List Nat × GoType)) :
    Nat → List (List Nat × DV) → List Nat →
      Except String (List (List Nat × DV) × List Nat)
  | 0, st, r => .ok (st, r)
  | n + 1, st, r =>
    match decKey r with
    | .error e => .error e
    | .ok (key, r1) =>
      match assocGet binding key with
      | none => structLoop decKey decVal binding n st r1
      | some ft =>
        match decVal r1 with
        | .error e => .error e
        | .ok (v, r2) =>
          match setStructField v ft with
          | .error e => .error e
          | .ok fv => structLoop decKey decVal binding n (assocSet st key fv) r2

/-- Decoding into a string sink, as the map and struct loops do for their
keys (dec.Decode with a string target): the materialised value must be a
string or the reflect Set panics. -/
def decodeKeyWith (recur : Sink → List Nat → Except String (DV × List Nat))
    (s : List Nat) : Except String (List Nat × List Nat) :=
  match recur .strSink s with
  | .error e => .error e
  | .ok (.strV k, r1) => .ok (k, r1)
  | .ok _ => .error "reflect: Set of value with wrong type"

/-! ### Leaf decoders and the decoder facade -/

/-- Source: the Decode methods of the leaf decoder structs (lines 564-981),
dispatched on the registered object.  `recur` is the facade at one less
fuel, used by the array, map and extension decoders. -/
def runLeaf (recur : Sink → List Nat → Except String (DV × List Nat))
    (reg : Reg) (vd : VD) (r : List Nat) : Except String (DV × List Nat) :=
  match vd with
  | .nilD => .ok (.invalid, r)
  | .boolD code => .ok (.boolV (code = 0xc3 : Bool), r)
  | .floatD code =>
    if code = 0xca then
      match readUintBE 4 r with
      | .error e => .error e
      | .ok (bits, r1) => .ok (.f32 bits, r1)
    else if code = 0xcb then
      match readUintBE 8 r with
      | .error e => .error e
      | .ok (bits, r1) => .ok (.f64 bits, r1)
    else .error "msgpack: unknown float code"
  | .uintD code =>
    if code = 0xcc then
      match readUintBE 1 r with
      | .error e => .error e
      | .ok (v, r1) => .ok (.u8 v, r1)
    else if code = 0xcd then
      match readUintBE 2 r with
      | .error e => .error e
      | .ok (v, r1) => .ok (.u16 v, r1)
    else if code = 0xce then
      match readUintBE 4 r with
      | .error e => .error e
      | .ok (v, r1) => .ok (.u32 v, r1)
    else if code = 0xcf then
      match readUintBE 8 r with
      | .error e => .error e
      | .ok (v, r1) => .ok (.u64 v, r1)
    else .error "msgpack: invalid code for uint"
  | .intD code =>
    if code = 0xd0 then
      match readUintBE 1 r with
      | .error e => .error e
      | .ok (v, r1) => .ok (.i8 (toSigned 8 v), r1)
    else if code = 0xd1 then
      match readUintBE 2 r with
      | .error e => .error e
      | .ok (v, r1) => .ok (.i16 (toSigned 16 v), r1)
    else if code = 0xd2 then
      match readUintBE 4 r with
      | .error e => .error e
      | .ok (v, r1) => .ok (.i32 (toSigned 32 v), r1)
    else if code = 0xd3 then
      match readUintBE 8 r with
      | .error e => .error e
      | .ok (v, r1) => .ok (.i64 (toSigned 64 v), r1)
    else .error "msgpack: invalid code for int"
  | .strD code =>
    let lres : Except String (Nat × List Nat) :=
      if code = 0xd9 ∨ code = 0xc4 then readUintBE 1 r
      else if code = 0xda ∨ code = 0xc5 then readUintBE 2 r
      else if code = 0xdb ∨ code = 0xc6 then readUintBE 4 r
      else .ok (0, r)
    match lres with
    | .error e => .error e
    | .ok (l, r1) =>
      if code = 0xc4 ∨ code = 0xc5 ∨ code = 0xc6 then
        -- Source lines 702-707: the Bin arm returns the freshly acquired
        -- pool buffer WITHOUT copying the payload into it (the CopyN runs
        -- only on the string arm); the pool hands out an empty buffer
        -- (modelled from the spec's scratch-pool contract, section 6).
        .ok (.binV [], r1)
      else if l ≤ r1.length then .ok (.strV (r1.take l), r1.drop l)
      else .error "msgpack: failed to read string"
  | .fixstrD code =>
    let l := code - 0xa0
    if l ≤ r.length then .ok (.strV (r.take l), r.drop l)
    else .error "msgpack: failed to decode FixStr"
  | .arrayD code =>
    match arraySize code r with
    | .error e => .error e
    | .ok (size, r1) =>
      match decodeSeq (fun s => recur .generic s) size r1 with
      | .error e => .error e
      | .ok (xs, r2) => .ok (.arrV xs, r2)
  | .mapD code =>
    match mapSize code r with
    | .error e => .error e
    | .ok (size, r1) =>
      match decodePairs (decodeKeyWith recur) (fun s => recur .generic s)
          size [] r1 with
      | .error e => .error e
      | .ok (m, r2) => .ok (.mapV m, r2)
  | .extD code =>
    match extPayloadSize code r with
    | .error e => .error e
    | .ok (psize, r1) =>
      match readByteL r1 with
      | .error e => .error e
      | .ok (b, r2) =>
        match reg b with
        | none =>
          -- Source lines 965-967: the registry miss applies errors.Wrapf
          -- to the nil error left by the successful ReadByte, and
          -- Wrapf of nil is nil, so the miss returns the zero value
          -- with a nil error.
          match errorsWrapf none "msgpack: failed to lookup msgpack type" with
          | none => .ok (.invalid, r2)
          | some e => .error e
        | some entry =>
          if entry.canDecode then
            match entry.dec (r2.take psize) with
            | .error e => .error e
            | .ok (v, leftover) => .ok (v, leftover ++ r2.drop psize)
          else .error "msgpack: does not implement DecodeMsgpackExter"

/-- Assignment of the materialised value into the caller's sink (lines
1164-1172): an invalid value sets the sink's zero; a value of the sink's
type is set; a mismatched Set panics (modelled as an error).  The
pointer-dereference arm (lines 1165-1166) concerns pointer-returning
extension decoders and the struct path, which returns directly below. -/
def assignSink : Sink → DV → List Nat → Except String (DV × List Nat)
  | .generic, dv, r => .ok (dv, r)
  | .strSink, .strV s, r => .ok (.strV s, r)
  | .strSink, .invalid, r => .ok (.strV [], r)
  | .strSink, _, _ => .error "reflect: Set of value with wrong type"
  | .structSink fds, .invalid, r => .ok (.structV (initStruct fds), r)
  | .structSink _, .structV st, r => .ok (.structV st, r)
  | .structSink _, _, _ => .error "reflect: Set of value with wrong type"

/-- One step of Decoder.Decode (lines 1140-1174) after the tag byte has been
peeked and consumed: the struct special case first (Map-family tag into a
record sink, lines 1147-1150), otherwise the decoders-table dispatch, the
leaf run, and the sink assignment. -/
def decodeStep (recur : Sink → List Nat → Except String (DV × List Nat))
    (reg : Reg) (sink : Sink) (code : Nat) (r : List Nat) :
    Except String (DV × List Nat) :=
  if IsMapFamily code && isStructSink sink then
    match mapSize code r with
    | .error e => .error e
    | .ok (size, r1) =>
      match structLoop (decodeKeyWith recur) (fun s => recur .generic s)
          (buildBinding (sinkFields sink)) size (initStruct (sinkFields sink))
          r1 with
      | .error e => .error e
      | .ok (st, r2) => .ok (.structV st, r2)
  else
    match lookupDecoder code with
    | none => .error "msgpack: decoder for code not found"
    | some vd =>
      match runLeaf recur reg vd r with
      | .error e => .error e
      | .ok (dv, r2) => assignSink sink dv r2

/-- Source: Decoder.Decode (lines 1124-1175), with a fuel bound on the
recursion depth: peek the tag byte and consume it, then dispatch. -/
def Decode : Nat → Reg → Sink → List Nat → Except String (DV × List Nat)
  | 0, _, _, _ => .error "msgpack: recursion fuel exhausted"
  | fuel + 1, reg, sink, r =>
    match r with
    | [] => .error "msgpack: failed to peek code"
    | code :: r1 => decodeStep (fun sk s => Decode fuel reg sk s) reg sink code r1

/-! ### PeekCode and the buffered reader -/

/-- Modelled from the spec / the bufio contract the source relies on: the
Decoder's buffered reader is a cursor over the underlying stream together
with the validity flag for UnreadByte (a byte can be unread only directly
after a successful ReadByte). -/
structure BufReader where
  data : List Nat
  pos : Nat
  lastRead : Bool

/-- Modelled from the bufio contract: ReadByte returns the byte at the
cursor and advances it. -/
def BufReader.readByte (r : BufReader) : Except String (Nat × BufReader) :=
  if h : r.pos < r.data.length then
    .ok (r.data.get ⟨r.pos, h⟩, { r with pos := r.pos + 1, lastRead := true })
  else .error "EOF"

/-- Modelled from the bufio contract: UnreadByte steps the cursor back one
byte, failing unless the previous operation was a successful ReadByte. -/
def BufReader.unreadByte (r : BufReader) : Except String BufReader :=
  if r.lastRead = true ∧ 0 < r.pos then
    .ok { r with pos := r.pos - 1, lastRead := false }
  else .error "bufio: invalid use of UnreadByte"

/-- Source: Decoder.PeekCode (lines 989-999): ReadByte, then UnreadByte,
each failure wrapped. -/
def PeekCode (r : BufReader) : Except String (Nat × BufReader) :=
  match r.readByte with
  | .error e => .error ("msgpack: failed to peek code: " ++ e)
  | .ok (b, r1) =>
    match r1.unreadByte with
    | .error e => .error ("msgpack: failed to unread code: " ++ e)
    | .ok r2 => .ok (b, r2)

/-- Success test for a fallible result. -/
def isOkE {α : Type} : Except String α → Bool
  | .ok _ => true
  | .error _ => false
/-! ### Helper lemmas -/

theorem beBytes_length (w n : Nat) : (beBytes w n).length = w := by
  induction w generalizing n with
  | zero => rfl
  | succ k ih => simp [beBytes, ih]

theorem beBytes_one (n : Nat) : beBytes 1 n = [n % 256] := rfl

theorem beBytes_two_of_le (n : Nat) (h : n ≤ 65535) :
    beBytes 2 n = [n / 256, n % 256] := by
  have h1 : n / 256 ≤ 255 := by omega
  simp [beBytes, Nat.mod_eq_of_lt (by omega : n / 256 < 256)]

theorem beBytes_four_of_le (n : Nat) (h : n ≤ 4294967295) :
    beBytes 4 n = [n / 2 ^ 24, n / 2 ^ 16 % 256, n / 2 ^ 8 % 256, n % 256] := by
  have e1 : n / 256 / 256 = n / 65536 := by rw [Nat.div_div_eq_div_mul]
  have e2 : n / 65536 / 256 = n / 16777216 := by rw [Nat.div_div_eq_div_mul]
  have h1 : n / 16777216 < 256 := by omega
  simp [beBytes, e1, e2, Nat.mod_eq_of_lt h1]

theorem fixstr_or_eq_add (l : Nat) (h : l < 32) : 0xa0 ||| l = 0xa0 + l := by
  interval_cases l <;> rfl

/-- Claim C6: for every string of byte length L, EncodeString emits a FixStr
tag carrying L in its low 5 bits if L < 32, the Str8 tag and a 1-byte length
if L is at most 255, the Str16 tag and a 2-byte big-endian length if L is at
most 65535, the Str32 tag and a 4-byte big-endian length if L is at most
2^32-1, and fails with a string-too-long error otherwise; the header is
always followed by the L string bytes. -/
theorem str_encode_matches_spec (s : List Nat) :
    okValue (EncodeString s) = specEncodeString s := by
  by_cases h1 : s.length < 32
  · simp [EncodeString, specEncodeString, okValue, h1, fixstr_or_eq_add _ h1]
  · by_cases h2 : s.length ≤ 255
    · simp [EncodeString, specEncodeString, okValue, h1, h2, beBytes_one,
        Nat.mod_eq_of_lt (show s.length < 256 by omega)]
    · by_cases h3 : s.length ≤ 65535
      · simp [EncodeString, specEncodeString, okValue, h1, h2, h3,
          beBytes_two_of_le _ h3]
      · by_cases h4 : s.length ≤ 4294967295
        · simp [EncodeString, specEncodeString, okValue, h1, h2, h3, h4,
            beBytes_four_of_le _ h4]
        · simp [EncodeString, specEncodeString, okValue, h1, h2, h3, h4]

/-- Claim C7: for every buffered extension payload, EncodeExt emits
FixExt1/2/4/8/16 when the payload length is exactly 1, 2, 4, 8 or 16,
otherwise Ext8 / Ext16 / Ext32 by the length ladder with the length in
1/2/4 big-endian bytes, then one byte of extension type code, then the
payload bytes, and fails when the length exceeds 2^32-1. -/
theorem ext_encode_matches_spec (typ : Nat) (payload : List Nat) :
    okValue (EncodeExt typ payload) = specEncodeExt typ payload := by
  by_cases e1 : payload.length = 1
  · simp [EncodeExt, specEncodeExt, okValue, e1]
  · by_cases e2 : payload.length = 2
    · simp [EncodeExt, specEncodeExt, okValue, e1, e2]
    · by_cases e4 : payload.length = 4
      · simp [EncodeExt, specEncodeExt, okValue, e1, e2, e4]
      · by_cases e8 : payload.length = 8
        · simp [EncodeExt, specEncodeExt, okValue, e1, e2, e4, e8]
        · by_cases e16 : payload.length = 16
          · simp [EncodeExt, specEncodeExt, okValue, e1, e2, e4, e8, e16]
          · by_cases h2 : payload.length ≤ 255
            · simp [EncodeExt, specEncodeExt, okValue, e1, e2, e4, e8, e16,
                h2, beBytes_one,
                Nat.mod_eq_of_lt (show payload.length < 256 by omega)]
            · by_cases h3 : payload.length ≤ 65535
              · simp [EncodeExt, specEncodeExt, okValue, e1, e2, e4, e8, e16,
                  h2, h3, beBytes_two_of_le _ h3]
              · by_cases h4 : payload.length ≤ 4294967295
                · simp [EncodeExt, specEncodeExt, okValue, e1, e2, e4, e8,
                    e16, h2, h3, h4, beBytes_four_of_le _ h4]
                · simp [EncodeExt, specEncodeExt, okValue, e1, e2, e4, e8,
                    e16, h2, h3, h4]

/-- Claim C9: Encoder.Encode maps a Go platform-width int through int64(v)
to the Int64 form (tag 0xd3 followed by 8 big-endian bytes of the
two's-complement pattern) and a platform-width uint through uint64(v) to the
Uint64 form (tag 0xcf followed by 8 big-endian bytes), for every value,
regardless of magnitude. -/
theorem platform_int_encodes_full_width (v : Int) (n : Nat) :
    Encode (.int v) = .ok (0xd3 :: beBytes 8 (toUnsigned 64 v)) ∧
    Encode (.uint n) = .ok (0xcf :: beBytes 8 n) ∧
    (beBytes 8 (toUnsigned 64 v)).length = 8 ∧
    (beBytes 8 n).length = 8 :=
  ⟨rfl, rfl, beBytes_length 8 _, beBytes_length 8 _⟩


set_option maxRecDepth 4096 in
theorem lookupDecoder_none_low : ∀ b, b < 128 → lookupDecoder b = none := by
  decide

set_option maxRecDepth 4096 in
theorem lookupDecoder_none_high :
    ∀ b, b < 256 → 0xe0 ≤ b → lookupDecoder b = none := by
  decide

/-! ### Claim theorems (decoder side) -/

/-- Claim C1 fails on the code: the round-trip law breaks on byte strings.
Encoding the one-byte payload 0x41 yields the Bin8 frame c4 01 41, but
decoding that frame returns the empty byte slice (the Bin arm of the string
decoder hands back the fresh pool buffer without copying the payload) and
leaves the payload byte unconsumed in the stream. -/
theorem roundtrip_fails_on_bin :
    Encode (.bin [0x41]) = .ok [0xc4, 0x01, 0x41] ∧
    Decode 4 emptyReg .generic [0xc4, 0x01, 0x41] = .ok (.binV [], [0x41]) :=
  ⟨rfl, rfl⟩

/-- Claim C2 fails on the code: the decoders table has no entry for any
positive fixint tag 0x00..0x7f or negative fixint tag 0xe0..0xff, so
Decoder.Decode on such a stream fails with a decoder-not-found error
instead of yielding the embedded integer. -/
theorem fixint_decode_unsupported (b : Nat) (rest : List Nat) (fuel : Nat)
    (reg : Reg) (h : b ≤ 0x7f ∨ (0xe0 ≤ b ∧ b ≤ 0xff)) :
    Decode (fuel + 1) reg .generic (b :: rest) =
      .error "msgpack: decoder for code not found" := by
  have hl : lookupDecoder b = none := by
    rcases h with h | ⟨h1, h2⟩
    · exact lookupDecoder_none_low b (by omega)
    · exact lookupDecoder_none_high b (by omega) h1
  simp [Decode, decodeStep, isStructSink, hl]

/-- Witness for the fixint theorem at the positive fixint 0x00. -/
theorem fixint_decode_unsupported_witness :
    Decode 1 emptyReg .generic [0x00] =
      .error "msgpack: decoder for code not found" :=
  fixint_decode_unsupported 0x00 [] 0 emptyReg (Or.inl (by decide))

/-- Claim C3 fails on the code: decoding the two-entry map
82 a1 78 a2 7a 7a a1 61 d3 ..3 (keys "x" then "a") into a record with the
single int64 field "a" hits the unknown key "x", and the loop moves on
WITHOUT decoding the entry's value, so the value frame a2 7a 7a ("zz") is
read as the next key, the real "a" entry is never seen, the field stays
zero, and the "a" entry's frames are left unconsumed; dropping the unknown
entry (second conjunct) binds the field correctly, showing the failure is
the skip itself. -/
theorem unknown_field_value_not_discarded :
    Decode 8 emptyReg (.structSink [⟨[0x61], true, .i64T⟩])
      [0x82, 0xa1, 0x78, 0xa2, 0x7a, 0x7a, 0xa1, 0x61,
        0xd3, 0, 0, 0, 0, 0, 0, 0, 3] =
      .ok (.structV [([0x61], .i64 0)],
        [0xa1, 0x61, 0xd3, 0, 0, 0, 0, 0, 0, 0, 3]) ∧
    Decode 8 emptyReg (.structSink [⟨[0x61], true, .i64T⟩])
      [0x81, 0xa1, 0x61, 0xd3, 0, 0, 0, 0, 0, 0, 0, 3] =
      .ok (.structV [([0x61], .i64 3)], []) :=
  ⟨rfl, rfl⟩

/-- Claim C4 fails on the code: the extension decoder's payload-size
computation yields 0 (not 1/2/4/16) for FixExt1/2/4/16, reads no length
bytes at all for Ext16 and Ext32 (the stream is returned untouched and the
size is 0), and only handles Ext8 (1-byte length read) and FixExt8
(intrinsic 8) as the claim describes; moreover the decoders table has no
entry at all for FixExt1 (0xd4) or Ext16 (0xc8). -/
theorem ext_payload_length_mishandled :
    extPayloadSize 0xd4 [0x99] = .ok (0, [0x99]) ∧
    extPayloadSize 0xd5 [0x99] = .ok (0, [0x99]) ∧
    extPayloadSize 0xd6 [0x99] = .ok (0, [0x99]) ∧
    extPayloadSize 0xd8 [0x99] = .ok (0, [0x99]) ∧
    extPayloadSize 0xc8 [0x00, 0x02, 0x2a] = .ok (0, [0x00, 0x02, 0x2a]) ∧
    extPayloadSize 0xc9 [0x00, 0x00, 0x00, 0x02, 0x2a] =
      .ok (0, [0x00, 0x00, 0x00, 0x02, 0x2a]) ∧
    extPayloadSize 0xd7 [0x99] = .ok (8, [0x99]) ∧
    extPayloadSize 0xc7 [0x05, 0x2a] = .ok (5, [0x2a]) ∧
    lookupDecoder 0xd4 = none ∧
    lookupDecoder 0xc8 = none :=
  ⟨rfl, rfl, rfl, rfl, rfl, rfl, rfl, rfl, rfl, rfl⟩

/-- Claim C5 fails on the code: decoding the Ext8 frame c7 01 2a 00 with an
empty decode registry RETURNS SUCCESS (the sink is set to its zero value
and the payload byte is left unconsumed), because the registry-miss arm
wraps the nil error from the preceding successful ReadByte, and Wrapf of
nil is nil. -/
theorem unknown_ext_type_not_an_error :
    Decode 4 emptyReg .generic [0xc7, 0x01, 0x2a, 0x00] =
      .ok (.invalid, [0x00]) ∧
    errorsWrapf none "msgpack: failed to lookup msgpack type" = none :=
  ⟨rfl, rfl⟩

/-- Claim C8: with at least one byte available, PeekCode succeeds and
returns the byte at the cursor with the cursor unmoved; a second PeekCode
on the resulting state returns the same byte and the same state; and a
ReadByte on the resulting state still sees that byte first. -/
theorem peek_code_idempotent (r : BufReader) (h : r.pos < r.data.length) :
    PeekCode r = .ok (r.data[r.pos], { r with lastRead := false }) ∧
    PeekCode { r with lastRead := false } =
      .ok (r.data[r.pos], { r with lastRead := false }) ∧
    BufReader.readByte { r with lastRead := false } =
      .ok (r.data[r.pos], { r with pos := r.pos + 1, lastRead := true }) := by
  have hrb : ∀ b : Bool, BufReader.readByte ⟨r.data, r.pos, b⟩ =
      .ok (r.data[r.pos], ⟨r.data, r.pos + 1, true⟩) := by
    intro b
    simp [BufReader.readByte, h]
  have hur : BufReader.unreadByte ⟨r.data, r.pos + 1, true⟩ =
      .ok ⟨r.data, r.pos, false⟩ := by
    simp [BufReader.unreadByte]
  have hpk : ∀ b : Bool, PeekCode ⟨r.data, r.pos, b⟩ =
      .ok (r.data[r.pos], ⟨r.data, r.pos, false⟩) := by
    intro b
    unfold PeekCode
    rw [hrb b]
    simp [hur]
  refine ⟨?_, ?_, ?_⟩
  · exact hpk r.lastRead
  · exact hpk false
  · exact hrb false

/-- Witness for the PeekCode theorem on the concrete stream 2a 01. -/
theorem peek_code_idempotent_witness :
    PeekCode ⟨[0x2a, 0x01], 0, false⟩ = .ok (0x2a, ⟨[0x2a, 0x01], 0, false⟩) :=
  (peek_code_idempotent ⟨[0x2a, 0x01], 0, false⟩ (by decide)).1

/-- Claim C10: in the generic-field arm of the struct binder, a decoded
int64 assigned to a uint8 field is truncated modulo 2^8 without error, a
decoded int64 assigned to a string field is converted by the Go
integer-to-string rule rather than rejected, and, for every materialised
value, the assignment errors exactly when the dynamic type is not
Go-convertible to the field type. -/
theorem generic_field_convertibility (n : Int) (v : DV) (ft t : GoType)
    (h : dvGoType v = some t) :
    setStructField (.i64 n) .u8T = .ok (.u8 (toUnsigned 8 n)) ∧
    setStructField (.i64 n) .stringT = .ok (.strV (goIntToString n)) ∧
    isOkE (setStructField v ft) = goConvertibleTo t ft := by
  refine ⟨rfl, rfl, ?_⟩
  by_cases hc : goConvertibleTo t ft = true
  · simp [setStructField, h, hc, isOkE]
  · have hc2 : goConvertibleTo t ft = false := by
      revert hc
      cases goConvertibleTo t ft <;> simp
    simp [setStructField, h, hc2, isOkE]

/-- Witness for the convertibility theorem: a decoded uint16 value 300 into
a uint8 field (a Go-convertible pair). -/
theorem generic_field_convertibility_witness :
    setStructField (.i64 0) .u8T = .ok (.u8 (toUnsigned 8 0)) ∧
    setStructField (.i64 0) .stringT = .ok (.strV (goIntToString 0)) ∧
    isOkE (setStructField (.u16 300) .u8T) = goConvertibleTo .u16T .u8T :=
  generic_field_convertibility 0 (.u16 300) .u8T .u16T rfl
